import Mathlib

/-!
Shallow embedding of the llama-stack-mcp-server repository
(`custom-mcp-llm/draft_finnish.py` and
`custom-mcp-helsinki/helsinki_transport.py`) and proofs of the frozen
claims about it.

Modelling conventions:
* JSON-decoded Python values are the inductive `Json`; JSON numbers are
  modelled as `Int` (no claim touches fractional values).  A decoded
  object is a key/value list with distinct keys, looked up by `List.lookup`.
* Python exceptions that the embedded code can raise or catch are the
  inductive `PyExc`; a Python function that can raise is a Lean function
  into `Except PyExc _`.
* The single outbound HTTP call of each operation is an oracle argument
  describing its outcome; operations also return the number of times the
  transport helper was invoked where a claim depends on it.
* `datetime.fromtimestamp(t).strftime("%H:%M:%S")` is modelled for a
  fixed-offset local timezone `tz` (seconds east of UTC, no DST): the
  wall-clock seconds-of-day of instant `t` are `(t + tz) % 86400`.
-/

namespace LlamaStackMcp

/-- A JSON value as decoded by Python's `json` module (`response.json()`).
Numbers are modelled as integers; object fields keep their order and are
assumed distinct, as produced by decoding a JSON object. -/
inductive Json where
  | null : Json
  | bool : Bool → Json
  | num : Int → Json
  | str : String → Json
  | arr : List Json → Json
  | obj : List (String × Json) → Json

/-- The Python exceptions the embedded code can raise or catch. -/
inductive PyExc where
  | keyError
  | indexError
  | typeError
  | attributeError
  | jsonDecodeError
deriving DecidableEq

/-- Python `str(x)` / `repr(x)` of a JSON-decoded value, as used by an
f-string such as `f"... {data}"`.  Python quotes a string with single
quotes unless it contains one and no double quote; escaping of control
characters inside string literals is not modelled (no claim depends on
it). -/
def pyReprStr (s : String) : String :=
  if s.contains '\x27' && !(s.contains '"') then "\"" ++ s ++ "\""
  else "\x27" ++ s ++ "\x27"

mutual

/-- Python `str()` of a decoded JSON value (`repr` for nested values). -/
def pyRepr : Json → String
  | .null => "None"
  | .bool true => "True"
  | .bool false => "False"
  | .num n => toString n
  | .str s => pyReprStr s
  | .arr xs => "[" ++ pyReprList xs ++ "]"
  | .obj fs => "\x7b" ++ pyReprObj fs ++ "\x7d"

/-- Comma-separated `repr`s of the elements of a decoded JSON array. -/
def pyReprList : List Json → String
  | [] => ""
  | [x] => pyRepr x
  | x :: xs => pyRepr x ++ ", " ++ pyReprList xs

/-- Comma-separated `key: value` `repr`s of the fields of a decoded dict. -/
def pyReprObj : List (String × Json) → String
  | [] => ""
  | [(k, v)] => pyReprStr k ++ ": " ++ pyRepr v
  | (k, v) :: fs => pyReprStr k ++ ": " ++ pyRepr v ++ ", " ++ pyReprObj fs

end

/-- Python subscript `j[key]` with a string key: dict lookup (KeyError when
the key is absent); every other decoded value raises TypeError (a list or a
string because the index is not an integer, the rest because they are not
subscriptable). -/
def pyGetStr (j : Json) (key : String) : Except PyExc Json :=
  match j with
  | .obj fs =>
    match fs.lookup key with
    | some v => .ok v
    | none => .error .keyError
  | _ => .error .typeError

/-- Python subscript `j[i]` with a non-negative integer index: list and
string indexing (IndexError out of range; indexing a string yields a
one-character string), dict lookup raises KeyError (decoded keys are
strings), the rest raise TypeError. -/
def pyGetIdx (j : Json) (i : Nat) : Except PyExc Json :=
  match j with
  | .arr xs =>
    match xs.get? i with
    | some v => .ok v
    | none => .error .indexError
  | .obj _ => .error .keyError
  | .str s =>
    match s.toList.get? i with
    | some c => .ok (.str (String.mk [c]))
    | none => .error .indexError
  | _ => .error .typeError

/-- The character class stripped by Python's `str.strip()` (ASCII
whitespace; exotic unicode whitespace is not modelled, no claim uses it). -/
def isPyWhitespace (c : Char) : Bool :=
  c = ' ' || c = '\t' || c = '\n' || c = '\r' || c = '\x0b' || c = '\x0c'

/-- Python `s.strip()`: remove leading and trailing whitespace. -/
def pyStrip (s : String) : String :=
  String.mk (((s.toList.dropWhile isPyWhitespace).reverse.dropWhile
    isPyWhitespace).reverse)

/-! ## Completion forwarding adapter (`custom-mcp-llm/draft_finnish.py`) -/

/-- One chat message of the OpenAI-style payload. -/
structure ChatMessage where
  role : String
  content : String
deriving DecidableEq

/-- The environment variables read by `draft_finnish.py`, `none` for an
unset variable. -/
structure Config where
  vllmEndpoint : Option String
  vllmModel : Option String
  vllmApiKey : Option String
  draftFinnishSystemPrompt : Option String
deriving DecidableEq

/-- Embeds `DEFAULT_MODEL = os.getenv(VLLM_MODEL_ENV, "meta-llama/Llama-3.1-8B-Instruct")`. -/
def DEFAULT_MODEL (cfg : Config) : String :=
  cfg.vllmModel.getD "meta-llama/Llama-3.1-8B-Instruct"

/-- Embeds `DEFAULT_SYSTEM_PROMPT = os.getenv("DRAFT_FINNISH_SYSTEM_PROMPT", "Olet ...")`. -/
def DEFAULT_SYSTEM_PROMPT (cfg : Config) : String :=
  cfg.draftFinnishSystemPrompt.getD
    "Olet avulias suomenkielinen avustaja. Vastaa suomeksi, ellei toisin pyydetä."

/-- Embeds `_build_messages(prompt, system_prompt)`: `system_prompt or
DEFAULT_SYSTEM_PROMPT` (Python `or` falls through on `None` and on the
empty string), prepend a system message when the result is truthy, then
the user message. -/
def build_messages (cfg : Config) (prompt : String)
    (system_prompt : Option String) : List ChatMessage :=
  let system : String :=
    match system_prompt with
    | some s => if s = "" then DEFAULT_SYSTEM_PROMPT cfg else s
    | none => DEFAULT_SYSTEM_PROMPT cfg
  (if system ≠ "" then [⟨"system", system⟩] else []) ++ [⟨"user", prompt⟩]

/-- The JSON payload posted to vLLM (the float sampling parameters
`temperature` and `max_tokens` are forwarded verbatim and read by no
claim, so they are not modelled). -/
structure Payload where
  model : String
  messages : List ChatMessage
deriving DecidableEq

/-- The outcome of the single `_post_to_vllm` call: a 2xx response with a
decoded JSON body, a 2xx response whose body is not valid JSON (in which
case `response.json()` raises a `json.JSONDecodeError`), a non-2xx status
(`response.raise_for_status()` raises `httpx.HTTPStatusError` carrying
status and body text), or a transport failure (`httpx.RequestError`
rendered as a message). -/
inductive TransportOutcome where
  | success : Json → TransportOutcome
  | successInvalidJson : TransportOutcome
  | httpStatusError : Nat → String → TransportOutcome
  | requestError : String → TransportOutcome

/-- Embeds `data["choices"][0]["message"]["content"]` with Python subscript
semantics: the subscripts apply left to right and the first failure
raises. -/
def extractContent (data : Json) : Except PyExc Json :=
  match pyGetStr data "choices" with
  | .error e => .error e
  | .ok choices =>
    match pyGetIdx choices 0 with
    | .error e => .error e
    | .ok first =>
      match pyGetStr first "message" with
      | .error e => .error e
      | .ok message => pyGetStr message "content"

/-- The configuration-error string returned when `VLLM_ENDPOINT` is unset
or empty. -/
def configErrorMessage : String :=
  "VLLM endpoint is not configured. Set the environment variable " ++
    "VLLM_ENDPOINT to the vLLM /v1/chat/completions URL."

/-- Embeds `draft_finnish(prompt, system_prompt=...)`: resolve the endpoint (a
missing or empty `VLLM_ENDPOINT` returns the configuration-error string
with no network call), build the payload, perform the single transport
call whose outcome is the oracle argument, convert `HTTPStatusError` and
`RequestError` to strings, extract the content at `choices[0].message.content`
catching `(KeyError, IndexError, TypeError)`, and return
`completion.strip()` — which raises `AttributeError` when the extracted
value is not a string.  The second component counts invocations of
`_post_to_vllm`. -/
def draft_finnish (cfg : Config) (prompt : String)
    (system_prompt : Option String) (outcome : TransportOutcome) :
    Except PyExc String × Nat :=
  match cfg.vllmEndpoint with
  | none => (.ok configErrorMessage, 0)
  | some endpoint =>
    if endpoint = "" then (.ok configErrorMessage, 0)
    else
      let model := cfg.vllmModel.getD (DEFAULT_MODEL cfg)
      let _payload : Payload := ⟨model, build_messages cfg prompt system_prompt⟩
      let result : Except PyExc String :=
        match outcome with
        | .httpStatusError status text =>
          .ok ("vLLM returned an error: " ++ toString status ++ " " ++ text)
        | .requestError msg =>
          .ok ("Unable to reach vLLM endpoint at " ++ endpoint ++ ": " ++ msg)
        | .successInvalidJson => .error .jsonDecodeError
        | .success data =>
          match extractContent data with
          | .error .keyError | .error .indexError | .error .typeError =>
            .ok ("Unexpected response format from vLLM: " ++ pyRepr data)
          | .error e => .error e
          | .ok (.str completion) => .ok (pyStrip completion)
          | .ok _ => .error .attributeError
      (result, 1)

/-! ## Transit query adapter (`custom-mcp-helsinki/helsinki_transport.py`)

The GraphQL query strings built by the operations are sent to the upstream
API and never re-read locally, and `get_stop_info` is touched by no claim,
so neither is modelled.  `make_graphql_request` catches every exception and
returns `None`; its result is the oracle argument `Option _` of each
operation. -/

/-- Zero-pad a number below 100 to two digits, as `strftime` does for
`%H`, `%M` and `%S`. -/
def pad2 (n : Nat) : String :=
  if n < 10 then "0" ++ toString n else toString n

/-- Embeds `format_time(service_day, seconds)`: `datetime.fromtimestamp(service_day
+ seconds).strftime("%H:%M:%S")` for a fixed-offset local timezone `tz`
(seconds east of UTC). -/
def format_time (tz : Int) (service_day : Int) (seconds : Int) : String :=
  let timestamp := service_day + seconds
  let s := ((timestamp + tz).emod 86400).toNat
  pad2 (s / 3600) ++ ":" ++ pad2 (s % 3600 / 60) ++ ":" ++ pad2 (s % 60)

/-- The spec's time-rendering rule, stated from its words: the zero-padded
24-hour local wall-clock representation of an instant — hours, minutes and
seconds of the local day. -/
def localClock24 (tz : Int) (instant : Int) : String :=
  let s := ((instant + tz).emod 86400).toNat
  pad2 (s / 3600) ++ ":" ++ pad2 (s / 60 % 60) ++ ":" ++ pad2 (s % 60)

/-- The spec's delay-annotation rule, stated from its words. -/
def delayAnnotation (d : Int) : String :=
  if d > 0 then " (Delayed by " ++ toString d ++ "s)"
  else if d < 0 then " (Early by " ++ toString d.natAbs ++ "s)"
  else ""

/-- The `trip` sub-object of a stop-time (the nested `route` object is
fetched but read by neither formatter). -/
structure Trip where
  routeShortName : Option String := none

/-- A stop-time record as decoded from the GraphQL response; `none` models
an absent key. -/
structure StopTime where
  scheduledDeparture : Option Int := none
  realtimeDeparture : Option Int := none
  departureDelay : Option Int := none
  scheduledArrival : Option Int := none
  realtimeArrival : Option Int := none
  arrivalDelay : Option Int := none
  serviceDay : Option Int := none
  headsign : Option String := none
  trip : Option Trip := none

/-- Embeds `format_departure(stoptime, service_day)`. -/
def format_departure (tz : Int) (stoptime : StopTime) (service_day : Int) :
    String :=
  let scheduled_dep := stoptime.scheduledDeparture.getD 0
  let _realtime_dep := stoptime.realtimeDeparture.getD scheduled_dep
  let delay := stoptime.departureDelay.getD 0
  let headsign := stoptime.headsign.getD "Unknown destination"
  let trip := stoptime.trip.getD ⟨none⟩
  let route_short_name := trip.routeShortName.getD "N/A"
  let scheduled_time := format_time tz service_day scheduled_dep
  let time_info :=
    if delay > 0 then scheduled_time ++ " (Delayed by " ++ toString delay ++ "s)"
    else if delay < 0 then
      scheduled_time ++ " (Early by " ++ toString delay.natAbs ++ "s)"
    else scheduled_time
  time_info ++ " - Route " ++ route_short_name ++ " to " ++ headsign

/-- Embeds `format_arrival(stoptime, service_day)`. -/
def format_arrival (tz : Int) (stoptime : StopTime) (service_day : Int) :
    String :=
  let scheduled_arr := stoptime.scheduledArrival.getD 0
  let _realtime_arr := stoptime.realtimeArrival.getD scheduled_arr
  let delay := stoptime.arrivalDelay.getD 0
  let headsign := stoptime.headsign.getD "Unknown origin"
  let trip := stoptime.trip.getD ⟨none⟩
  let route_short_name := trip.routeShortName.getD "N/A"
  let scheduled_time := format_time tz service_day scheduled_arr
  let time_info :=
    if delay > 0 then scheduled_time ++ " (Delayed by " ++ toString delay ++ "s)"
    else if delay < 0 then
      scheduled_time ++ " (Early by " ++ toString delay.natAbs ++ "s)"
    else scheduled_time
  time_info ++ " - Route " ++ route_short_name ++ " from " ++ headsign

/-- Python `sep.join(xs)`. -/
def pyJoin (sep : String) : List String → String
  | [] => ""
  | [x] => x
  | x :: xs => x ++ sep ++ pyJoin sep xs

/-- The decoded `stop` object of a departures/timetable response. -/
structure GqlStop where
  name : Option String := none
  stoptimesWithoutPatterns : Option (List StopTime) := none

/-- The decoded `data` object of a departures/timetable response.  A `stop`
of JSON `null` (unknown stop id) is `none`, which the operations treat as a
fetch failure. -/
structure GqlData where
  stop : Option GqlStop := none

/-- Embeds `get_departures(stop_id, limit)`: `limit` only shapes the upstream
query; the decoded response (or `None` on any transport error) is the
oracle argument. -/
def get_departures (tz : Int) (stop_id : String) (_limit : Int)
    (resp : Option GqlData) : String :=
  match resp with
  | none => "Unable to fetch departures for stop ID: " ++ stop_id
  | some d =>
    match d.stop with
    | none => "Unable to fetch departures for stop ID: " ++ stop_id
    | some stop_data =>
      let stop_name := stop_data.name.getD "Unknown stop"
      let stoptimes := stop_data.stoptimesWithoutPatterns.getD []
      match stoptimes with
      | [] =>
        "No departures found for stop: " ++ stop_name ++ " (" ++ stop_id ++ ")"
      | st0 :: rest =>
        let service_day := st0.serviceDay.getD 0
        let departures :=
          (st0 :: rest).map (fun st => format_departure tz st service_day)
        "Departures from " ++ stop_name ++ " (" ++ stop_id ++ "):\n" ++
          pyJoin "\n" departures

/-- Embeds `get_timetable(stop_id, start_time, time_range)`: `start_time` and the
cap of 50 entries only shape the upstream query; `time_range` also appears
in the header as whole minutes (Python floor division `// 60`). -/
def get_timetable (tz : Int) (stop_id : String) (_start_time : Int)
    (time_range : Int) (resp : Option GqlData) : String :=
  match resp with
  | none => "Unable to fetch timetable for stop ID: " ++ stop_id
  | some d =>
    match d.stop with
    | none => "Unable to fetch timetable for stop ID: " ++ stop_id
    | some stop_data =>
      let stop_name := stop_data.name.getD "Unknown stop"
      let stoptimes := stop_data.stoptimesWithoutPatterns.getD []
      match stoptimes with
      | [] =>
        "No timetable entries found for stop: " ++ stop_name ++ " (" ++
          stop_id ++ ")"
      | st0 :: rest =>
        let service_day := st0.serviceDay.getD 0
        let departures :=
          (st0 :: rest).map (fun st => format_departure tz st service_day)
        let time_range_minutes := Int.ediv time_range 60
        "Timetable for " ++ stop_name ++ " (" ++ stop_id ++ ") - Next " ++
          toString time_range_minutes ++ " minutes:\n" ++ pyJoin "\n" departures

/-- One decoded stop of a `find_stop` search response. -/
structure StopRec where
  gtfsId : Option String := none
  name : Option String := none
  code : Option String := none
  desc : Option String := none
  lat : Option Int := none
  lon : Option Int := none

/-- The decoded `data` object of a search response (`stops` of JSON `null`
is `none`, treated like an empty result). -/
structure FindData where
  stops : Option (List StopRec) := none

/-- Rendering of `stop.get(key, "N/A")` by an f-string, for the numeric
coordinate fields. -/
def renderOptInt : Option Int → String
  | some v => toString v
  | none => "N/A"

/-- Python list slice `xs[:limit]` for an arbitrary integer `limit`. -/
def pySlice {α : Type} (xs : List α) (limit : Int) : List α :=
  if 0 ≤ limit then xs.take limit.toNat
  else xs.take (xs.length - limit.natAbs)

/-- The block `find_stop` renders for one found stop. -/
def format_found_stop (stop : StopRec) : String :=
  "ID: " ++ stop.gtfsId.getD "N/A" ++ "\n" ++
  "  Name: " ++ stop.name.getD "N/A" ++ "\n" ++
  "  Code: " ++ stop.code.getD "N/A" ++ "\n" ++
  "  Location: " ++ stop.desc.getD "N/A" ++ "\n" ++
  "  Coordinates: " ++ renderOptInt stop.lat ++ ", " ++ renderOptInt stop.lon

/-- The formatted entries `find_stop` returns: the matches truncated by
`stops[:limit]`, then rendered. -/
def find_stop_results (stops : List StopRec) (limit : Int) : List String :=
  (pySlice stops limit).map format_found_stop

/-- Embeds `find_stop(name, limit)`: the decoded response (or `None` on any
transport error) is the oracle argument.  The emptiness check runs on the
full match list; the header count is the length after truncation. -/
def find_stop (name : String) (limit : Int) (resp : Option FindData) :
    String :=
  match resp with
  | none => "Unable to search for stops with name: " ++ name
  | some d =>
    let stops := d.stops.getD []
    match stops with
    | [] => "No stops found matching: " ++ name
    | _ :: _ =>
      let results := find_stop_results stops limit
      let header := "Found " ++ toString results.length ++
        " stop(s) matching \x27" ++ name ++ "\x27:\n\n"
      header ++ pyJoin "\n\n" results

/-! ## Claims about the transit query adapter -/

/-- C2: for every integer delay value, both `format_departure` and
`format_arrival` produce the formatted stop-time line with exactly the
spec's delay annotation appended to the rendered time — `" (Delayed by
{d}s)"` for positive delay, `" (Early by {|d|}s)"` for negative delay,
nothing for zero — since the record's delay field ranges over every
`Option Int`, this covers every integer delay. -/
theorem formatters_append_spec_delay_annotation (tz : Int) (st : StopTime)
    (sd : Int) :
    format_departure tz st sd =
      format_time tz sd (st.scheduledDeparture.getD 0) ++
        delayAnnotation (st.departureDelay.getD 0) ++
        (" - Route " ++ (st.trip.getD ⟨none⟩).routeShortName.getD "N/A" ++
          " to " ++ st.headsign.getD "Unknown destination") ∧
    format_arrival tz st sd =
      format_time tz sd (st.scheduledArrival.getD 0) ++
        delayAnnotation (st.arrivalDelay.getD 0) ++
        (" - Route " ++ (st.trip.getD ⟨none⟩).routeShortName.getD "N/A" ++
          " from " ++ st.headsign.getD "Unknown origin") := by
  constructor <;>
  · simp only [format_departure, format_arrival, delayAnnotation]
    split_ifs <;> simp only [String.append_assoc, String.append_empty]

/-- C3: `format_time` renders the instant `serviceDay + offsetSeconds` as
the zero-padded 24-hour local wall-clock time of that instant (for the
fixed local offset `tz`), and the concrete example: service day 0 with
offset 3661 renders as "01:01:01" relative to the epoch. -/
theorem format_time_is_local_clock24 :
    (∀ tz service_day offset : Int,
      format_time tz service_day offset = localClock24 tz (service_day + offset)) ∧
    format_time 0 0 3661 = "01:01:01" := by
  constructor
  · intro tz service_day offset
    simp only [format_time, localClock24]
    have h : ∀ s : Nat, s % 3600 / 60 = s / 60 % 60 := by
      intro s
      have := Nat.mod_mul_right_div_self s 60 60
      simpa using this
    rw [h]
  · decide

/-- C4: every formatted departure line is the rendered scheduled time,
then the delay annotation, then `" - Route {routeShortName} to
{headsign}"`; and the end-to-end example — scheduled departure 600, delay
30, headsign "X", route "5", service day 0 — formats as
"00:10:00 (Delayed by 30s) - Route 5 to X". -/
theorem format_departure_line_shape_and_example :
    (∀ (tz : Int) (st : StopTime) (sd : Int),
      format_departure tz st sd =
        format_time tz sd (st.scheduledDeparture.getD 0) ++
          delayAnnotation (st.departureDelay.getD 0) ++
          (" - Route " ++ (st.trip.getD ⟨none⟩).routeShortName.getD "N/A" ++
            " to " ++ st.headsign.getD "Unknown destination")) ∧
    format_departure 0
      { scheduledDeparture := some 600, departureDelay := some 30,
        headsign := some "X", trip := some ⟨some "5"⟩ } 0 =
      "00:10:00 (Delayed by 30s) - Route 5 to X" := by
  constructor
  · intro tz st sd
    simp only [format_departure, delayAnnotation]
    split_ifs <;> simp only [String.append_assoc, String.append_empty]
  · decide

/-- C8: a successful response whose stop-times list is empty (or whose
stop-times key is absent, which the code defaults to the empty list) makes
`get_departures` return the "No departures found" message and
`get_timetable` the "No timetable entries found" message, each naming the
stop — no formatting error occurs. -/
theorem empty_stoptimes_yield_no_entries_message (tz : Int)
    (stop_id name : String) (lim start_t range_t : Int) :
    get_departures tz stop_id lim (some ⟨some ⟨some name, some []⟩⟩) =
      "No departures found for stop: " ++ name ++ " (" ++ stop_id ++ ")" ∧
    get_departures tz stop_id lim (some ⟨some ⟨some name, none⟩⟩) =
      "No departures found for stop: " ++ name ++ " (" ++ stop_id ++ ")" ∧
    get_timetable tz stop_id start_t range_t
        (some ⟨some ⟨some name, some []⟩⟩) =
      "No timetable entries found for stop: " ++ name ++ " (" ++ stop_id ++ ")" ∧
    get_timetable tz stop_id start_t range_t
        (some ⟨some ⟨some name, none⟩⟩) =
      "No timetable entries found for stop: " ++ name ++ " (" ++ stop_id ++ ")" :=
  ⟨rfl, rfl, rfl, rfl⟩

/-- C9: for a non-empty stop-times batch, both operations format every
entry with the service day of the first entry (0 when that field is
absent): replacing the `serviceDay` field of every entry beyond the first
by anything (`f`) leaves the output unchanged, and the output formats all
entries, first included, with the first entry's day. -/
theorem batch_service_day_from_first_entry (tz : Int) (stop_id name : String)
    (lim start_t range_t : Int) (st0 : StopTime) (rest : List StopTime)
    (f : StopTime → Option Int) :
    get_departures tz stop_id lim
        (some ⟨some ⟨some name,
          some (st0 :: rest.map (fun st => { st with serviceDay := f st }))⟩⟩) =
      "Departures from " ++ name ++ " (" ++ stop_id ++ "):\n" ++
        pyJoin "\n" ((st0 :: rest).map
          (fun st => format_departure tz st (st0.serviceDay.getD 0))) ∧
    get_timetable tz stop_id start_t range_t
        (some ⟨some ⟨some name,
          some (st0 :: rest.map (fun st => { st with serviceDay := f st }))⟩⟩) =
      "Timetable for " ++ name ++ " (" ++ stop_id ++ ") - Next " ++
        toString (Int.ediv range_t 60) ++ " minutes:\n" ++
        pyJoin "\n" ((st0 :: rest).map
          (fun st => format_departure tz st (st0.serviceDay.getD 0))) := by
  constructor <;>
  · simp only [get_departures, get_timetable, Option.getD_some, List.map_cons,
      List.map_map]
    rfl

/-- C10: the realtime fields are read but never influence the formatted
string — two stop-time records that differ only in `realtimeDeparture`
(resp. `realtimeArrival`) format identically under `format_departure`
(resp. `format_arrival`). -/
theorem realtime_fields_noninterference (tz : Int) (st : StopTime) (sd : Int)
    (r r' : Option Int) :
    format_departure tz { st with realtimeDeparture := r } sd =
      format_departure tz { st with realtimeDeparture := r' } sd ∧
    format_arrival tz { st with realtimeArrival := r } sd =
      format_arrival tz { st with realtimeArrival := r' } sd :=
  ⟨rfl, rfl⟩

/-- C7: for every upstream search result that contains a `data` field —
when the match list is empty the result is exactly the "No stops found"
message, and when it has more than `limit` entries (for a non-negative
`limit`, the only shape the operation's count parameter takes) exactly
`limit` formatted entries are returned and the header count equals the
truncated length. -/
theorem find_stop_empty_and_truncation (name : String) (limit : Int)
    (d : FindData) (h0 : 0 ≤ limit) :
    (d.stops.getD [] = [] →
      find_stop name limit (some d) = "No stops found matching: " ++ name) ∧
    (limit.toNat < (d.stops.getD []).length →
      (find_stop_results (d.stops.getD []) limit).length = limit.toNat ∧
      find_stop name limit (some d) =
        "Found " ++ toString limit.toNat ++ " stop(s) matching \x27" ++ name ++
          "\x27:\n\n" ++ pyJoin "\n\n" (find_stop_results (d.stops.getD []) limit)) := by
  obtain ⟨stopsOpt⟩ := d
  have hlen : ∀ l : List StopRec, limit.toNat < l.length →
      (find_stop_results l limit).length = limit.toNat := by
    intro l hl
    simp only [find_stop_results, pySlice, if_pos h0, List.length_map,
      List.length_take]
    omega
  constructor
  · intro h
    rcases stopsOpt with _ | l
    · rfl
    · simp only [Option.getD_some] at h
      subst h
      rfl
  · intro hl
    rcases stopsOpt with _ | l
    · simp at hl
    · simp only [Option.getD_some] at hl ⊢
      refine ⟨hlen l hl, ?_⟩
      rcases l with _ | ⟨s, ss⟩
      · simp at hl
      · simp only [find_stop, Option.getD_some]
        rw [hlen (s :: ss) hl]

/-- Witness for C7: two concrete matches truncated by limit 1 yield exactly
one formatted entry. -/
theorem find_stop_empty_and_truncation_witness :
    (find_stop_results [⟨some "HSL:1", some "A", none, none, none, none⟩,
        ⟨some "HSL:2", some "B", none, none, none, none⟩] 1).length = 1 :=
  ((find_stop_empty_and_truncation "A" 1
      ⟨some [⟨some "HSL:1", some "A", none, none, none, none⟩,
        ⟨some "HSL:2", some "B", none, none, none, none⟩]⟩ (by decide)).2
    (by decide)).1

/-! ## Claims about the completion forwarding adapter -/

/-- The exception classes caught by the extraction `try` block of
`draft_finnish` (`except (KeyError, IndexError, TypeError)`). -/
def catchable (e : PyExc) : Prop :=
  e = .keyError ∨ e = .indexError ∨ e = .typeError

/-- A failing string subscript raises only KeyError or TypeError, both of
which the extraction `try` block catches. -/
theorem pyGetStr_error_catchable (j : Json) (k : String) (e : PyExc)
    (h : pyGetStr j k = .error e) : catchable e := by
  unfold pyGetStr at h
  split at h
  · split at h
    · exact Except.noConfusion h
    · exact Or.inl (Except.error.inj h).symm
  · exact Or.inr (Or.inr (Except.error.inj h).symm)

/-- A failing integer subscript raises only IndexError, KeyError or
TypeError, all of which the extraction `try` block catches. -/
theorem pyGetIdx_error_catchable (j : Json) (i : Nat) (e : PyExc)
    (h : pyGetIdx j i = .error e) : catchable e := by
  unfold pyGetIdx at h
  split at h
  · split at h
    · exact Except.noConfusion h
    · exact Or.inr (Or.inl (Except.error.inj h).symm)
  · exact Or.inl (Except.error.inj h).symm
  · split at h
    · exact Except.noConfusion h
    · exact Or.inr (Or.inl (Except.error.inj h).symm)
  · exact Or.inr (Or.inr (Except.error.inj h).symm)

/-- Every exception `data["choices"][0]["message"]["content"]` can raise is
one the surrounding `try` block catches. -/
theorem extractContent_error_catchable (data : Json) (e : PyExc)
    (h : extractContent data = .error e) : catchable e := by
  unfold extractContent at h
  split at h
  · exact (Except.error.inj h) ▸ pyGetStr_error_catchable _ _ _ (by assumption)
  · split at h
    · exact (Except.error.inj h) ▸ pyGetIdx_error_catchable _ _ _ (by assumption)
    · split at h
      · exact (Except.error.inj h) ▸ pyGetStr_error_catchable _ _ _ (by assumption)
      · exact pyGetStr_error_catchable _ _ _ h

/-- C5: when `VLLM_ENDPOINT` is unset or empty, `draft_finnish` returns
the configuration-error string — which names the missing variable — and
invokes the transport helper zero times, for every prompt and every
would-be transport outcome. -/
theorem draft_finnish_missing_endpoint_no_call (cfg : Config)
    (prompt : String) (system_prompt : Option String)
    (outcome : TransportOutcome)
    (h : cfg.vllmEndpoint = none ∨ cfg.vllmEndpoint = some "") :
    draft_finnish cfg prompt system_prompt outcome =
      (.ok configErrorMessage, 0) ∧
    ∃ pre post : String,
      configErrorMessage = pre ++ "VLLM_ENDPOINT" ++ post := by
  refine ⟨?_, ⟨"VLLM endpoint is not configured. Set the environment variable ",
    " to the vLLM /v1/chat/completions URL.", by decide⟩⟩
  rcases h with h | h <;> simp [draft_finnish, h]

/-- Witness for C5 at a fully unset configuration and a transport that
would fail if it were ever reached. -/
theorem draft_finnish_missing_endpoint_no_call_witness :
    draft_finnish ⟨none, none, none, none⟩ "Hei" none
      (.requestError "down") = (.ok configErrorMessage, 0) :=
  (draft_finnish_missing_endpoint_no_call ⟨none, none, none, none⟩ "Hei" none
    (.requestError "down") (Or.inl rfl)).1

/-- A decoded 2xx body whose `choices[0].message.content` resolves to a
non-string value (here the number 5). -/
def nonStringContentBody : Json :=
  .obj [("choices", .arr [.obj [("message", .obj [("content", .num 5)])]])]

/-- C1 counterexample: with the endpoint configured and a 2xx response
whose `choices[0].message.content` is the number 5, `draft_finnish` does
not return a string — `completion.strip()` raises an uncaught
AttributeError, refuting "never raises to its caller ... every response
body shape". -/
theorem draft_finnish_raises_on_nonstring_content :
    (draft_finnish ⟨some "http://vllm.local", none, none, none⟩ "Hei" none
      (.success nonStringContentBody)).1 = .error .attributeError := by
  rfl

/-- C1 amended: `draft_finnish` returns a string for every configuration
state and every transport outcome except the two uncaught corner cases —
a 2xx body that is not valid JSON (the `json.JSONDecodeError` propagates)
and a decoded body whose `choices[0].message.content` path resolves to a
non-string value (`completion.strip()` raises AttributeError). -/
theorem draft_finnish_amended_total (cfg : Config) (prompt : String)
    (system_prompt : Option String) (outcome : TransportOutcome)
    (hjson : outcome ≠ .successInvalidJson)
    (hstr : ∀ data, outcome = .success data →
      ∀ j, extractContent data = .ok j → ∃ s, j = Json.str s) :
    ∃ s : String, (draft_finnish cfg prompt system_prompt outcome).1 = .ok s := by
  obtain ⟨epOpt, mOpt, kOpt, spOpt⟩ := cfg
  cases epOpt with
  | none => exact ⟨configErrorMessage, rfl⟩
  | some ep =>
    rcases eq_or_ne ep "" with rfl | hne
    · exact ⟨configErrorMessage, rfl⟩
    · simp only [draft_finnish, if_neg hne]
      cases outcome with
      | httpStatusError status text => exact ⟨_, rfl⟩
      | requestError msg => exact ⟨_, rfl⟩
      | successInvalidJson => exact absurd rfl hjson
      | success data =>
        cases hex : extractContent data with
        | ok j =>
          obtain ⟨s, rfl⟩ := hstr data rfl j hex
          exact ⟨pyStrip s, by simp [hex]⟩
        | error e =>
          rcases extractContent_error_catchable data e hex with h | h | h <;>
            subst h <;>
            exact ⟨"Unexpected response format from vLLM: " ++ pyRepr data,
              by simp [hex]⟩

/-- Witness for C1 (amended) at a concrete transport failure: the
hypotheses hold there and the operation answers with a string. -/
theorem draft_finnish_amended_total_witness :
    ((.requestError "connection refused" : TransportOutcome) ≠
      .successInvalidJson) ∧
    ∃ s : String,
      (draft_finnish ⟨some "http://vllm.local", none, none, none⟩ "Hei" none
        (.requestError "connection refused")).1 = .ok s :=
  ⟨by simp, draft_finnish_amended_total _ "Hei" none _ (by simp)
    (by intro data hd; cases hd)⟩

/-- A decoded 2xx body whose `choices[0].message.content` resolves to a
non-string value (here the empty list). -/
def listContentBody : Json :=
  .obj [("choices", .arr [.obj [("message", .obj [("content", .arr [])])]])]

/-- C6 counterexample: the path `choices[0].message.content` exists (it
resolves, to an empty list), yet the result is not that content stripped —
the operation raises an uncaught AttributeError, refuting the claim's
"if the path exists, the result is that content ... stripped" and
"no error is thrown". -/
theorem draft_finnish_content_path_exists_but_raises :
    extractContent listContentBody = .ok (.arr []) ∧
    (draft_finnish ⟨some "http://vllm.local", none, none, none⟩ "Hei" none
      (.success listContentBody)).1 = .error .attributeError :=
  ⟨rfl, rfl⟩

/-- C6 amended: for a successful transport call with the endpoint
configured, when `choices[0].message.content` resolves to a string the
result is that string with surrounding whitespace stripped, and when the
path fails to resolve (KeyError, IndexError or TypeError) the result is a
string embedding the raw decoded response; a path that resolves to a
non-string value instead raises AttributeError. -/
theorem draft_finnish_success_extraction_amended (cfg : Config)
    (prompt : String) (system_prompt : Option String) (data : Json)
    (ep : String) (hep : cfg.vllmEndpoint = some ep) (hne : ep ≠ "") :
    (∀ s, extractContent data = .ok (.str s) →
      (draft_finnish cfg prompt system_prompt (.success data)).1 =
        .ok (pyStrip s)) ∧
    (∀ e, extractContent data = .error e →
      (draft_finnish cfg prompt system_prompt (.success data)).1 =
        .ok ("Unexpected response format from vLLM: " ++ pyRepr data)) := by
  constructor
  · intro s hs
    simp [draft_finnish, hep, if_neg hne, hs]
  · intro e he
    rcases extractContent_error_catchable data e he with h | h | h <;>
      subst h <;> simp [draft_finnish, hep, if_neg hne, he]

/-- Witness for C6 (amended): the mocked successful response carrying
" Hello " yields exactly "Hello". -/
theorem draft_finnish_success_extraction_amended_witness :
    (draft_finnish ⟨some "http://vllm.local", none, none, none⟩ "Hei" none
      (.success (.obj [("choices", .arr [.obj [("message",
        .obj [("content", .str " Hello ")])]])]))).1 = .ok "Hello" := by
  have h := (draft_finnish_success_extraction_amended
    ⟨some "http://vllm.local", none, none, none⟩ "Hei" none
    (.obj [("choices", .arr [.obj [("message",
      .obj [("content", .str " Hello ")])]])])
    "http://vllm.local" rfl (by decide)).1 " Hello " rfl
  rw [h]
  rfl

end LlamaStackMcp
